import Mathlib

/-!
Verification of the `llm_rank_diagnostic` scoring pipeline.

This file gives a shallow embedding, in Lean, of the core computational
pieces of the repository:

* `server/utils/scorer.js` — the five dimension sub-scorers,
  `scoreContent`, `generateHighlights`, `generateSummary`;
* `server/utils/scraper.js` — the same-domain link discovery of
  `scrapeWebsite` (anchor filter, sitemap `<loc>` filter, de-duplication
  and page cap);
* `server/routes/analyze.js` — the domain aggregation (`averageScore`)
  and `generateTopImprovements`.

Conventions of the embedding:

* JS strings become `String` (lengths are counted in characters; all the
  literals involved are ASCII, where JS UTF-16 lengths agree);
* JS numbers used by this code are non-negative integers except for the
  two floating-point quotients in `scoreTokenEfficiency` and the domain
  average; those quotients are modelled as exact rationals built with
  `mkRat`.  JS `0/0` is `NaN` and every `NaN` comparison is false; `mkRat
  n 0 = 0` and every comparison the code performs on such a value is
  false as well (each guard either compares against a larger constant or
  sits under a conjunction whose first conjunct is already false), so the
  boolean outcome agrees;
* fallible JS code (`try`/`catch`) is modelled with `Option`/`Except`:
  `none`/`.error` marks the branch where the JS throws;
* `async`/`await`, logging and the artificial delays carry no data and
  are dropped.
-/

namespace LlmRankDiag

/-! ### Character classes and basic string operations

`isWordChar` is the JS regex `\w` class, `isWsChar` the `\s` class
(restricted to its ASCII members, which are the only ones the scraped
content can contain after the extractor's whitespace normalisation). -/

def isUpperAZ (c : Char) : Bool := 'A' ≤ c && c ≤ 'Z'

def isLowerAZ (c : Char) : Bool := 'a' ≤ c && c ≤ 'z'

def isWordChar (c : Char) : Bool := c.isAlphanum || c == '_'

def isWsChar (c : Char) : Bool :=
  c == ' ' || c == '\t' || c == '\n' || c == '\r' || c == Char.ofNat 11 || c == Char.ofNat 12

def isSentenceEnd (c : Char) : Bool := c == '.' || c == '!' || c == '?'

/-- `startsL needle hay`: `needle` is a prefix of `hay`. -/
def startsL : List Char → List Char → Bool
  | [], _ => true
  | _ :: _, [] => false
  | a :: as, b :: bs => a == b && startsL as bs

/-- `occursIn needle hay`: `needle` occurs contiguously in `hay`
(JS `String.prototype.includes`; the empty needle occurs in anything). -/
def occursIn (needle : List Char) : List Char → Bool
  | [] => needle.isEmpty
  | c :: cs => startsL needle (c :: cs) || occursIn needle cs

/-- JS `s.includes(sub)`. -/
def jsIncludes (s sub : String) : Bool := occursIn sub.data s.data

/-- JS `s.startsWith(pre)`. -/
def jsStartsWith (s pre : String) : Bool := startsL pre.data s.data

/-- JS `s.trim()` (restricted to the modelled whitespace class). -/
def jsTrim (l : List Char) : List Char :=
  ((l.dropWhile isWsChar).reverse.dropWhile isWsChar).reverse

/-- Number of non-overlapping occurrences of `sep` (nonempty) scanning from
the left, as JS `String.prototype.split` with a string separator counts
them.  Fuel-driven; `countOcc` supplies sufficient fuel. -/
def countOccGo (sep : List Char) : Nat → List Char → Nat
  | _, [] => 0
  | 0, _ => 0
  | fuel + 1, c :: cs =>
    if startsL sep (c :: cs) then 1 + countOccGo sep fuel (cs.drop (sep.length - 1))
    else countOccGo sep fuel cs

def countOcc (sep l : List Char) : Nat := countOccGo sep (l.length + 1) l

/-- Number of parts of JS `s.split(sep)` for a nonempty string separator. -/
def countSplitParts (sep : String) (s : String) : Nat :=
  countOcc sep.data s.data + 1

/-- JS `s.split(regex)` where the regex is a character class with `+`
(`/[.!?]+/`, `/\s+/`): splits on maximal runs of separator characters,
keeping the (possibly empty) chunks at both ends, with `"" ↦ [""]`.
Fuel-driven; `splitRuns` supplies sufficient fuel. -/
def splitRunsGo (p : Char → Bool) : Nat → List Char → List (List Char)
  | 0, l => [l]
  | fuel + 1, l =>
    let chunk := l.takeWhile (fun c => !(p c))
    match l.dropWhile (fun c => !(p c)) with
    | [] => [chunk]
    | _ :: tail => chunk :: splitRunsGo p fuel (tail.dropWhile p)

def splitRuns (p : Char → Bool) (l : List Char) : List (List Char) :=
  splitRunsGo p (l.length + 1) l

/-- First-occurrence de-duplication with the set of already-seen elements
made explicit (the membership test a JS `Set.add` performs). -/
def dedupKeepFirstAux {α : Type} [DecidableEq α] (seen : List α) : List α → List α
  | [] => []
  | x :: xs =>
    if x ∈ seen then dedupKeepFirstAux seen xs
    else x :: dedupKeepFirstAux (x :: seen) xs

/-- First-occurrence de-duplication: the contents of a JS `Set`, in
insertion order (`Array.from(new Set(l))`); also used for `new Set(x).size`. -/
def dedupKeepFirst {α : Type} [DecidableEq α] (l : List α) : List α :=
  dedupKeepFirstAux [] l

/-! ### Counting the two global regex matches of `scorer.js`

`countSpecificTerms` counts the matches of
`/\b[A-Z][a-z]+(?:\s+[A-Z][a-z]+)*\b/g` and `countTechnicalTerms` the
matches of `/\b[A-Z]{2,}\b/g`, following the JS engine's leftmost-match,
greedy-with-backtracking search.  For the first pattern the only
backtracking a failure of the trailing `\b` can force is dropping the
last `(?:\s+[A-Z][a-z]+)` iteration (shrinking an `[a-z]+` always leaves
a word character next, failing `\b` again), which the `finishTerm`
fallback implements.  For the second pattern a maximal run of uppercase
letters matches iff it has length ≥ 2 and is a whole `\w`-word.  All
scanners are fuel-driven; the wrappers supply fuel exceeding the input
length, and every recursive call consumes at least one character. -/

/-- Parse one capitalized word `[A-Z][a-z]+` at the head; return the rest. -/
def capWord : List Char → Option (List Char)
  | [] => none
  | c :: cs =>
    if isUpperAZ c then
      if (cs.takeWhile isLowerAZ).isEmpty then none
      else some (cs.dropWhile isLowerAZ)
    else none

/-- Parse one `(?:\s+[A-Z][a-z]+)` group iteration at the head. -/
def capExt (r : List Char) : Option (List Char) :=
  if (r.takeWhile isWsChar).isEmpty then none
  else capWord (r.dropWhile isWsChar)

/-- After a complete capitalized word, greedily take further group
iterations, then satisfy the trailing `\b` (dropping the last iteration
if required); returns the remainder past the match, or `none` if no
match ending here satisfies `\b`. -/
def finishTerm : Nat → List Char → Option (List Char)
  | 0, _ => none
  | fuel + 1, r =>
    match capExt r with
    | some r2 =>
      match finishTerm fuel r2 with
      | some res => some res
      | none => some r
    | none =>
      match r with
      | [] => some []
      | c :: _ => if isWordChar c then none else some r

/-- Main scan for `/\b[A-Z][a-z]+(?:\s+[A-Z][a-z]+)*\b/g`.  `atBoundary`
records whether a `\b` holds before the current position. -/
def termsGo : Nat → Bool → List Char → Nat
  | 0, _, _ => 0
  | _, _, [] => 0
  | fuel + 1, atBoundary, c :: cs =>
    if atBoundary && isUpperAZ c then
      match capWord (c :: cs) with
      | some r =>
        match finishTerm (r.length + 1) r with
        | some res => 1 + termsGo fuel false res
        | none => termsGo fuel (!(isWordChar c)) cs
      | none => termsGo fuel (!(isWordChar c)) cs
    else termsGo fuel (!(isWordChar c)) cs

/-- `content.match(/\b[A-Z][a-z]+(?:\s+[A-Z][a-z]+)*\b/g)` match count
(`null` becomes the empty match list, i.e. count 0). -/
def countSpecificTerms (content : String) : Nat :=
  termsGo (content.length + 1) true content.data

/-- Main scan for `/\b[A-Z]{2,}\b/g`. -/
def techGo : Nat → Bool → List Char → Nat
  | 0, _, _ => 0
  | _, _, [] => 0
  | fuel + 1, atBoundary, c :: cs =>
    if atBoundary && isUpperAZ c then
      let run := (c :: cs).takeWhile isUpperAZ
      let rest := (c :: cs).dropWhile isUpperAZ
      if 2 ≤ run.length && (rest.isEmpty || !(isWordChar (rest.headD ' '))) then
        1 + techGo fuel false rest
      else
        techGo fuel (!(isWordChar c)) cs
    else techGo fuel (!(isWordChar c)) cs

/-- `content.match(/\b[A-Z]{2,}\b/g)` match count. -/
def countTechnicalTerms (content : String) : Nat :=
  techGo (content.length + 1) true content.data

/-! ### Data model

The record shapes of `scorer.js` / `scraper.js`.  A scraped page may
lack fields (`page.content || ''` guards in the JS); such fields are
`Option`s, and the JS falsiness defaults become `Option.getD` (an empty
string or empty list is falsy exactly when absent is, and both default
to the same value in every use below). -/

structure PageMetadata where
  title : String
  description : String
  h1 : String
  h2 : List String
  h3 : List String
  links : List String
  images : List String
deriving Repr, DecidableEq

structure Page where
  url : String
  title : Option String
  description : Option String
  content : Option String
  metadata : Option PageMetadata
deriving Repr, DecidableEq

/-- One overlay highlight; fields as pushed by `generateHighlights`
(the JS object keys `start`/`end`/`severity`/`suggestion`/`reason`/
`element_selector`). -/
structure Highlight where
  start : Nat
  «end» : Nat
  severity : String
  suggestion : String
  reason : String
  element_selector : String
deriving Repr, DecidableEq

structure DetailedAnalysis where
  content_length : Nat
  title_length : Nat
  description_length : Nat
  link_count : Nat
  heading_count : Nat
deriving Repr, DecidableEq

/-- The object returned by `scoreContent`.  On the error path the JS
returns `detailed_analysis: {}`; that empty bag is modelled as `none`. -/
structure ScoreResult where
  structure_semantics : Nat
  relevance_intent : Nat
  token_efficiency : Nat
  link_graph : Nat
  llm_output_likelihood : Nat
  total_score : Nat
  summary : String
  highlights : List Highlight
  detailed_analysis : Option DetailedAnalysis
deriving Repr, DecidableEq

/-- The per-dimension breakdown object passed to `generateSummary`. -/
structure ScoreBreakdown where
  structureSemantics : Nat
  relevanceIntent : Nat
  tokenEfficiency : Nat
  linkGraph : Nat
  llmOutputLikelihood : Nat
deriving Repr, DecidableEq

/-! ### The five dimension sub-scorers (`server/utils/scorer.js`)

Each is a sum of `if`-guarded 5-point contributions, clamped with
`Math.min` to the dimension maximum.  JS truthiness tests on strings
(`title && ...`) become `≠ ""`. -/

/-- The first list-marker literal tested by `scoreStructureSemantics`
(the bullet character as it appears, mojibake and all, in the source). -/
def bulletStr : String := "â€¢"

def scoreStructureSemantics (content title : String) : Nat :=
  let s1 := if title ≠ "" ∧ 10 < title.length ∧ title.length < 60 then 5 else 0
  let paragraphs := countSplitParts "\n\n" content
  let s2 := if 3 < paragraphs then 5 else 0
  let s3 := if jsIncludes content bulletStr || jsIncludes content "-"
               || jsIncludes content "1." then 5 else 0
  let s4 := if jsIncludes content "because" || jsIncludes content "therefore"
               || jsIncludes content "however" then 5 else 0
  let s5 := if jsIncludes content "is a" || jsIncludes content "refers to"
               || jsIncludes content "means" then 5 else 0
  Nat.min (s1 + s2 + s3 + s4 + s5) 25

def scoreRelevanceIntent (content title description : String) : Nat :=
  let s1 := if title ≠ "" ∧ 5 < title.length then 5 else 0
  let s2 := if description ≠ "" ∧ 20 < description.length then 5 else 0
  let s3 := if 5 < countSpecificTerms content then 5 else 0
  let s4 := if jsIncludes content "?" && jsIncludes content "answer" then 5 else 0
  let s5 := if jsIncludes content "how to" || jsIncludes content "guide"
               || jsIncludes content "tutorial" then 5 else 0
  Nat.min (s1 + s2 + s3 + s4 + s5) 25

/-- `scoreTokenEfficiency`.  The two JS floating-point quotients are
modelled as exact rationals via `mkRat`; when `sentences` is empty the
JS quotient is `NaN` whose comparisons are all false, and `mkRat n 0 = 0`
fails the `20 < avg` conjunct, so the guard agrees.  `words ≥ 1` always
(splitting any string yields at least one part), so the density quotient
never has a zero denominator. -/
def scoreTokenEfficiency (content : String) : Nat :=
  let s1 := if 500 < content.length ∧ content.length < 5000 then 5 else 0
  let sentences := (splitRuns isSentenceEnd content.data).filter
    (fun s => decide (0 < (jsTrim s).length))
  let avgSentenceLength : ℚ := mkRat ((sentences.map List.length).sum : Int) sentences.length
  let s2 := if 20 < avgSentenceLength ∧ avgSentenceLength < 100 then 5 else 0
  let words := (splitRuns isWsChar content.data).length
  let uniqueWords := (dedupKeepFirst (splitRuns isWsChar (content.data.map Char.toLower))).length
  let density : ℚ := mkRat (uniqueWords : Int) words
  let s3 := if mkRat 3 10 < density then 5 else 0
  let s4 := if 2 < countTechnicalTerms content then 5 else 0
  Nat.min (s1 + s2 + s3 + s4) 20

def scoreLinkGraph (links : List String) : Nat :=
  let s1 := if 5 < links.length then 5 else 0
  let descriptiveLinks := (links.filter (fun link => decide (10 < link.length))).length
  let s2 := if 2 < descriptiveLinks then 5 else 0
  let externalLinks := (links.filter
    (fun link => jsIncludes link "http" && !(jsIncludes link "localhost"))).length
  let s3 := if 1 < externalLinks then 5 else 0
  Nat.min (s1 + s2 + s3) 15

/-- `scoreLLMOutputLikelihood(content, title)`; `title` is accepted but
unused, as in the source. -/
def scoreLLMOutputLikelihood (content title : String) : Nat :=
  let s1 := if jsIncludes content "research" || jsIncludes content "study"
               || jsIncludes content "data" then 5 else 0
  let s2 := if jsIncludes content "according to" || jsIncludes content "sources"
               || jsIncludes content "references" then 5 else 0
  let s3 := if 1000 < content.length then 5 else 0
  Nat.min (s1 + s2 + s3) 15

/-! ### Highlights and summary -/

def generateHighlights (content : String) (totalScore : Nat) : List Highlight :=
  if totalScore < 50 then
    let h1 : Highlight :=
      { start := 0
        «end» := Nat.min 100 content.length
        severity := "high"
        suggestion := "Improve content structure and add more specific information"
        reason := "Content lacks clear structure and specific details that LLMs can easily parse"
        element_selector := "body" }
    if 200 < content.length then
      [h1,
       { start := 200
         «end» := Nat.min 400 content.length
         severity := "medium"
         suggestion := "Add more context and examples"
         reason := "This section could benefit from additional context and concrete examples"
         element_selector := "p" }]
    else [h1]
  else if totalScore < 75 then
    [{ start := 0
       «end» := Nat.min 50 content.length
       severity := "medium"
       suggestion := "Consider adding more specific details"
       reason := "Content is good but could be more specific for better LLM understanding"
       element_selector := "h1" }]
  else []

/-- `generateSummary(totalScore, breakdown)`; `breakdown` is accepted but
unused, as in the source. -/
def generateSummary (totalScore : Nat) (breakdown : ScoreBreakdown) : String :=
  if 80 ≤ totalScore then
    "Excellent LLM visibility. Content is well-structured, relevant, and likely to appear in AI responses."
  else if 60 ≤ totalScore then
    "Good LLM visibility with room for improvement. Focus on enhancing content structure and relevance."
  else if 40 ≤ totalScore then
    "Moderate LLM visibility. Significant improvements needed in content structure, relevance, and token efficiency."
  else
    "Low LLM visibility. Major improvements required across all scoring dimensions."

/-! ### `scoreContent` -/

/-- The success path of `scoreContent` (the body of its `try` block; the
delay, logging and `await` carry no data).  It is a total function: no
expression in the body can throw, every access is guarded exactly as in
the source. -/
def scoreContent (page : Page) : ScoreResult :=
  let content := page.content.getD ""
  let title := page.title.getD ""
  let description := page.description.getD ""
  let structureSemantics := scoreStructureSemantics content title
  let relevanceIntent := scoreRelevanceIntent content title description
  let tokenEfficiency := scoreTokenEfficiency content
  let links := (page.metadata.map PageMetadata.links).getD []
  let linkGraph := scoreLinkGraph links
  let llmOutputLikelihood := scoreLLMOutputLikelihood content title
  let totalScore := structureSemantics + relevanceIntent + tokenEfficiency
    + linkGraph + llmOutputLikelihood
  let highlights := generateHighlights content totalScore
  let summary := generateSummary totalScore
    { structureSemantics := structureSemantics
      relevanceIntent := relevanceIntent
      tokenEfficiency := tokenEfficiency
      linkGraph := linkGraph
      llmOutputLikelihood := llmOutputLikelihood }
  { structure_semantics := structureSemantics
    relevance_intent := relevanceIntent
    token_efficiency := tokenEfficiency
    link_graph := linkGraph
    llm_output_likelihood := llmOutputLikelihood
    total_score := totalScore
    summary := summary
    highlights := highlights
    detailed_analysis := some
      { content_length := content.length
        title_length := title.length
        description_length := description.length
        link_count := links.length
        heading_count :=
          (match page.metadata with
           | none => 0
           | some m => if m.h1 = "" then 0 else 1)
          + ((page.metadata.map (fun m => m.h2.length)).getD 0)
          + ((page.metadata.map (fun m => m.h3.length)).getD 0) } }

/-- The fixed default returned by `scoreContent`'s `catch` branch. -/
def defaultErrorScore : ScoreResult :=
  { structure_semantics := 10
    relevance_intent := 10
    token_efficiency := 8
    link_graph := 6
    llm_output_likelihood := 6
    total_score := 40
    summary := "Error occurred during scoring"
    highlights := []
    detailed_analysis := none }

/-- `scoreContent` with its `try`/`catch` made explicit: `attempt` is the
outcome of the `try` body (`.error` carries the thrown message), and the
`catch` branch substitutes `defaultErrorScore`. -/
def scoreContentWith (attempt : Except String ScoreResult) : ScoreResult :=
  match attempt with
  | .ok r => r
  | .error _ => defaultErrorScore

/-! ### Same-domain discovery (`server/utils/scraper.js`, `scrapeWebsite`)

Full WHATWG URL parsing is outside the modelled code, so the two uses
of the `URL` constructor are parameters of the embedding: `resolve`
models `new URL(href, url).href` (resolution of an anchor's href against
the seed page) and `host` models `new URL(u).hostname`; in both, `none`
marks the constructor throwing on invalid input. -/

/-- The guard on each anchor href:
`href && !href.startsWith('#') && !href.startsWith('mailto:') && !href.startsWith('tel:')`. -/
def keepHref (href : String) : Bool :=
  href != "" && !(jsStartsWith href "#") && !(jsStartsWith href "mailto:")
    && !(jsStartsWith href "tel:")

/-- The `$('a[href]').each` pass: hrefs surviving `keepHref` are resolved
against the seed and added iff the resolved URL's hostname equals the
seed's `domain`; a throwing `URL` constructor is caught per-href and the
href skipped. -/
def anchorLinks (domain : String) (resolve host : String → Option String) :
    List String → List String
  | [] => []
  | href :: rest =>
    if keepHref href then
      (match resolve href with
       | some fullUrl =>
         match host fullUrl with
         | some h => if h = domain then [fullUrl] else []
         | none => []
       | none => []) ++ anchorLinks domain resolve host rest
    else anchorLinks domain resolve host rest

/-- The `sitemap$('loc').each` pass: nonempty `<loc>` texts are added iff
their hostname equals `domain`.  There is no per-entry `try` here: a
throwing `URL` constructor propagates to the surrounding sitemap `catch`,
which abandons the remaining entries (earlier additions are kept). -/
def sitemapLinks (domain : String) (host : String → Option String) :
    List String → List String
  | [] => []
  | loc :: rest =>
    if loc != "" then
      match host loc with
      | some h => (if h = domain then [loc] else []) ++ sitemapLinks domain host rest
      | none => []
    else sitemapLinks domain host rest

/-- The insertion sequence of the `internalLinks` set: anchor links of the
seed page, then sitemap `<loc>` entries. -/
def internalLinksSeq (domain : String) (resolve host : String → Option String)
    (hrefs locs : List String) : List String :=
  anchorLinks domain resolve host hrefs ++ sitemapLinks domain host locs

/-- `const urlsToScrape = Array.from(internalLinks).slice(0, 10);
urlsToScrape.unshift(url);` — the discovered URL list handed to the
per-page scrape loop.  `internalLinks` is the raw insertion sequence;
the `Set` realises first-occurrence de-duplication. -/
def urlsToScrape (url : String) (internalLinks : List String) : List String :=
  url :: (dedupKeepFirst internalLinks).take 10

/-! ### Domain aggregation (`server/routes/analyze.js`) -/

/-- JS `Math.round` on a (finite) value: nearest integer, halves toward
positive infinity. -/
def jsMathRound (q : ℚ) : ℤ := ⌊q + mkRat 1 2⌋

/-- `Math.round(totalScore / scrapedPages.length)` from the analyze
route, over the list of per-page totals.  For the empty list the JS
quotient is `0/0 = NaN` and `Math.round(NaN) = NaN`; `none` models that
`NaN`. -/
def averageScore (pageTotals : List Nat) : Option ℤ :=
  if pageTotals.length = 0 then none
  else some (jsMathRound (mkRat (pageTotals.sum : Int) pageTotals.length))

/-- One element of the `pageScores` array the analyze route accumulates. -/
structure PageScoreEntry where
  pageId : Nat
  url : String
  title : String
  score : Nat
  summary : String
deriving Repr, DecidableEq

/-- How the route builds a `pageScores` entry from a page's `ScoreResult`. -/
def mkPageScoreEntry (pageId : Nat) (url title : String) (score : ScoreResult) :
    PageScoreEntry :=
  { pageId := pageId, url := url, title := title
    score := score.total_score, summary := score.summary }

/-- The fixed `improvements` catalogue inside `generateTopImprovements`;
its five entries correspond, in declaration order, to the five scoring
dimensions. -/
def improvementsCatalogue : List String :=
  ["Improve content structure and semantic markup",
   "Enhance relevance and intent clarity",
   "Optimize token efficiency and content density",
   "Strengthen internal linking and crawlability",
   "Increase likelihood of LLM output inclusion"]

/-- `generateTopImprovements(pageScores)`: the source ignores its argument
entirely and returns `improvements.slice(0, 3)`. -/
def generateTopImprovements (pageScores : List PageScoreEntry) : List String :=
  improvementsCatalogue.take 3

/-! ### The spec's claimed recommendation ranking (for comparison)

The specification describes the top improvements as ranked by which
dimensions scored lowest in aggregate, with a documented tie-break.  The
following definitions formalise that *claimed* behaviour (they are
deliberately written from the spec's words, not from the source) to be
compared against `generateTopImprovements`. -/

def insertSorted {α : Type} (le : α → α → Bool) (x : α) : List α → List α
  | [] => [x]
  | y :: ys => if le x y then x :: y :: ys else y :: insertSorted le x ys

def insertionSort {α : Type} (le : α → α → Bool) : List α → List α
  | [] => []
  | x :: xs => insertSorted le x (insertionSort le xs)

/-- Modelled from the spec: "ranked by which dimensions scored lowest in
aggregate across pages, truncated to a small fixed count (3–6) …
deterministic ranking, documented tie-break: lower absolute average
sub-score ranks first; ties broken by fixed dimension-declaration
order".  Pairs each dimension (by declaration index) with its average
sub-score over the scored pages, sorts ascending with the documented
tie-break, truncates to 3, and reads the remediation statements off the
fixed catalogue. -/
def claimedTopImprovements (scores : List ScoreResult) : List String :=
  let n := scores.length
  let avg := fun (f : ScoreResult → Nat) => mkRat ((scores.map f).sum : Int) n
  let dims : List (ℚ × Nat) :=
    [(avg (fun s => s.structure_semantics), 0),
     (avg (fun s => s.relevance_intent), 1),
     (avg (fun s => s.token_efficiency), 2),
     (avg (fun s => s.link_graph), 3),
     (avg (fun s => s.llm_output_likelihood), 4)]
  let le := fun (a b : ℚ × Nat) =>
    decide (a.1 < b.1) || (decide (a.1 = b.1) && decide (a.2 ≤ b.2))
  ((insertionSort le dims).map (fun d => improvementsCatalogue.getD d.2 "")).take 3

/-! ### Concrete inputs used by the witnesses and counterexamples -/

/-- The empty page of the spec's "empty page" scenario: empty title,
empty content, no links, no structured data. -/
def emptyPage : Page :=
  { url := "https://example.com/empty", title := some "", description := some ""
    content := some "", metadata := none }

/-- Eleven distinct same-domain URLs, more than the `maxPages = 10` cap. -/
def demoLinks : List String :=
  ["https://a.com/p1", "https://a.com/p2", "https://a.com/p3", "https://a.com/p4",
   "https://a.com/p5", "https://a.com/p6", "https://a.com/p7", "https://a.com/p8",
   "https://a.com/p9", "https://a.com/p10", "https://a.com/p11"]

/-- A scored page whose lowest dimension is, by far, the link graph. -/
def demoScores : List ScoreResult :=
  [{ structure_semantics := 25, relevance_intent := 25, token_efficiency := 20
     link_graph := 0, llm_output_likelihood := 15, total_score := 85
     summary := "", highlights := [], detailed_analysis := none }]

/-- A concrete hostname extractor for the discovery witnesses. -/
def demoHost : String → Option String := fun s =>
  if s = "https://a.com/x" then some "a.com"
  else if s = "https://a.com/" then some "a.com"
  else none

/-- A concrete href resolver for the discovery witnesses. -/
def demoResolve : String → Option String := fun s =>
  if s = "/x" then some "https://a.com/x" else none

/-! ## Theorems -/

theorem scoreStructureSemantics_le (content title : String) :
    scoreStructureSemantics content title ≤ 25 :=
  Nat.min_le_right _ _

theorem scoreRelevanceIntent_le (content title description : String) :
    scoreRelevanceIntent content title description ≤ 25 :=
  Nat.min_le_right _ _

theorem scoreTokenEfficiency_le (content : String) :
    scoreTokenEfficiency content ≤ 20 :=
  Nat.min_le_right _ _

theorem scoreLinkGraph_le (links : List String) :
    scoreLinkGraph links ≤ 15 :=
  Nat.min_le_right _ _

theorem scoreLLMOutputLikelihood_le (content title : String) :
    scoreLLMOutputLikelihood content title ≤ 15 :=
  Nat.min_le_right _ _

/-- Claim C1: for every Page, each sub-score returned by `scoreContent`
lies in `[0, its declared maximum]` (`structure_semantics ≤ 25`,
`relevance_intent ≤ 25`, `token_efficiency ≤ 20`, `link_graph ≤ 15`,
`llm_output_likelihood ≤ 15`; the scores are naturals, so `0 ≤` holds by
type), the returned `total_score` equals the sum of the sub-scores, and
`total_score ≤ 100`. -/
theorem scoreContent_bounds (p : Page) :
    (scoreContent p).structure_semantics ≤ 25 ∧
    (scoreContent p).relevance_intent ≤ 25 ∧
    (scoreContent p).token_efficiency ≤ 20 ∧
    (scoreContent p).link_graph ≤ 15 ∧
    (scoreContent p).llm_output_likelihood ≤ 15 ∧
    (scoreContent p).total_score =
      (scoreContent p).structure_semantics + (scoreContent p).relevance_intent
        + (scoreContent p).token_efficiency + (scoreContent p).link_graph
        + (scoreContent p).llm_output_likelihood ∧
    (scoreContent p).total_score ≤ 100 := by
  have h1 : (scoreContent p).structure_semantics
      = scoreStructureSemantics (p.content.getD "") (p.title.getD "") := rfl
  have h2 : (scoreContent p).relevance_intent
      = scoreRelevanceIntent (p.content.getD "") (p.title.getD "") (p.description.getD "") := rfl
  have h3 : (scoreContent p).token_efficiency
      = scoreTokenEfficiency (p.content.getD "") := rfl
  have h4 : (scoreContent p).link_graph
      = scoreLinkGraph ((p.metadata.map PageMetadata.links).getD []) := rfl
  have h5 : (scoreContent p).llm_output_likelihood
      = scoreLLMOutputLikelihood (p.content.getD "") (p.title.getD "") := rfl
  have ht : (scoreContent p).total_score
      = (scoreContent p).structure_semantics + (scoreContent p).relevance_intent
        + (scoreContent p).token_efficiency + (scoreContent p).link_graph
        + (scoreContent p).llm_output_likelihood := rfl
  have b1 := scoreStructureSemantics_le (p.content.getD "") (p.title.getD "")
  have b2 := scoreRelevanceIntent_le (p.content.getD "") (p.title.getD "") (p.description.getD "")
  have b3 := scoreTokenEfficiency_le (p.content.getD "")
  have b4 := scoreLinkGraph_le ((p.metadata.map PageMetadata.links).getD [])
  have b5 := scoreLLMOutputLikelihood_le (p.content.getD "") (p.title.getD "")
  refine ⟨?_, ?_, ?_, ?_, ?_, ht, ?_⟩ <;>
    first
      | (rw [h1]; exact b1)
      | (rw [h2]; exact b2)
      | (rw [h3]; exact b3)
      | (rw [h4]; exact b4)
      | (rw [h5]; exact b5)
      | (rw [ht, h1, h2, h3, h4, h5]; omega)

/-- Claim C2: scoring is deterministic and reads only the page's content,
title, description and metadata — two pages agreeing on those fields
(the URL may differ; it is only logged) receive identical results:
identical sub-scores, `total_score`, `summary`, `highlights` and
`detailed_analysis`.  The embedding is a pure function, so repeated
invocations on the same page are literally the same value: no
randomness and no wall-clock input exist in the sub-score computation. -/
theorem scoreContent_deterministic (p q : Page)
    (hc : p.content = q.content) (ht : p.title = q.title)
    (hd : p.description = q.description) (hm : p.metadata = q.metadata) :
    scoreContent p = scoreContent q := by
  simp only [scoreContent, hc, ht, hd, hm]

theorem scoreContent_deterministic_witness :
    scoreContent
        { url := "https://a.example/1", title := some "t", description := none
          content := some "hello", metadata := none }
      = scoreContent
        { url := "https://b.example/2", title := some "t", description := none
          content := some "hello", metadata := none } :=
  scoreContent_deterministic _ _ rfl rfl rfl rfl

/-- Claim C3, counterexample: with eleven distinct discoverable
same-domain URLs (more than `maxPages = 10`), the discovery list does
not have exactly 10 elements — `slice(0, 10)` is followed by
`unshift(url)`, so the seed is *added on top of* the cap. -/
theorem urlsToScrape_cap_counterexample :
    10 < (dedupKeepFirst demoLinks).length ∧
    (urlsToScrape "https://a.com/" demoLinks).length ≠ 10 := by decide

/-- Claim C3 (amended): for any seed whose page yields at least
`maxPages = 10` de-duplicated discoverable same-domain URLs, discovery
returns exactly `maxPages + 1 = 11` URLs — the seed prepended to the
first 10 de-duplicated discovered URLs — with the seed as element 0
(the prepended seed may duplicate a discovered URL). -/
theorem urlsToScrape_cap (url : String) (links : List String)
    (h : 10 ≤ (dedupKeepFirst links).length) :
    (urlsToScrape url links).length = 11 ∧
    (urlsToScrape url links).head? = some url := by
  refine ⟨?_, rfl⟩
  simp only [urlsToScrape, List.length_cons, List.length_take]
  omega

theorem urlsToScrape_cap_witness :
    10 ≤ (dedupKeepFirst demoLinks).length ∧
    ((urlsToScrape "https://a.com/" demoLinks).length = 11 ∧
      (urlsToScrape "https://a.com/" demoLinks).head? = some "https://a.com/") :=
  ⟨by decide, urlsToScrape_cap "https://a.com/" demoLinks (by decide)⟩

/-- Claim C4, counterexample: on the empty page the sub-scores are *not*
all 0 — `token_efficiency` is 5, because JS `''.split(/\s+/)` is `['']`,
giving `words = 1`, `uniqueWords = 1` and information density `1 > 0.3`,
so that check does not fall to its 0-point branch. -/
theorem scoreContent_emptyPage_counterexample :
    ¬ ((scoreContent emptyPage).token_efficiency = 0 ∧
       (scoreContent emptyPage).total_score = 0) := by decide

/-- Claim C4 (amended): for a Page with empty title, empty content, no
links and no structured data, scoring returns sub-scores 0 except
`token_efficiency = 5` (the information-density check passes vacuously
on the empty string), hence `total_score = 5`; the summary indicates low
visibility, and the highlight list contains a severity-`"high"` entry.
Scoring is a total function on such a page (it does not throw). -/
theorem scoreContent_emptyPage :
    (scoreContent emptyPage).structure_semantics = 0 ∧
    (scoreContent emptyPage).relevance_intent = 0 ∧
    (scoreContent emptyPage).token_efficiency = 5 ∧
    (scoreContent emptyPage).link_graph = 0 ∧
    (scoreContent emptyPage).llm_output_likelihood = 0 ∧
    (scoreContent emptyPage).total_score = 5 ∧
    (scoreContent emptyPage).summary =
      "Low LLM visibility. Major improvements required across all scoring dimensions." ∧
    (∃ h ∈ (scoreContent emptyPage).highlights, h.severity = "high") := by decide

/-- Claim C5: aggregating an empty list of scored pages is *not*
defined as the claim requires — `Math.round(totalScore / 0)` is `NaN`
(modelled `none`), an undefined numeric value that the route would then
insert into a column the schema range-checks to `[0, 100]`; and the top
improvements for an empty input are the fixed three catalogue entries,
not the empty list. -/
theorem averageScore_empty_nan :
    averageScore [] = none ∧ generateTopImprovements [] ≠ [] := by decide

/-- Claim C6, counterexample: for a scored page whose aggregate-lowest
dimension is the link graph (average 0, all others ≥ 15), the produced
recommendations are still the first three catalogue entries — not the
spec's lowest-dimension-first ranking, which would put the link-graph
remediation first. -/
theorem generateTopImprovements_counterexample :
    generateTopImprovements (demoScores.map (mkPageScoreEntry 1 "https://a.com/" "t"))
      ≠ claimedTopImprovements demoScores := by decide

/-- Claim C6 (amended): the top improvements are selected from the fixed
catalogue and truncated to a fixed count of 3 (within the claimed 3–6),
and are trivially deterministic under re-aggregation — but they are the
first three catalogue entries regardless of the input: no ranking by
lowest-scoring dimension takes place (the function ignores its
argument, which carries only per-page totals anyway). -/
theorem generateTopImprovements_fixed (ps qs : List PageScoreEntry) :
    generateTopImprovements ps =
      ["Improve content structure and semantic markup",
       "Enhance relevance and intent clarity",
       "Optimize token efficiency and content density"] ∧
    (generateTopImprovements ps).length = 3 ∧
    (∀ s ∈ generateTopImprovements ps, s ∈ improvementsCatalogue) ∧
    generateTopImprovements ps = generateTopImprovements qs := by
  refine ⟨rfl, rfl, ?_, rfl⟩
  show ∀ s ∈ improvementsCatalogue.take 3, s ∈ improvementsCatalogue
  decide

/-- Claim C9: the `catch` branch of `scoreContent` does not propagate an
exception thrown inside scoring: whatever the error, it substitutes the
fixed minimal default Score (conservative low sub-scores 10/10/8/6/6,
total 40, with an explanatory summary), so the page still reaches the
domain aggregate; a successful attempt is returned unchanged. -/
theorem scoreContentWith_failsoft (e : String) (p : Page) :
    scoreContentWith (Except.error e) = defaultErrorScore ∧
    scoreContentWith (Except.ok (scoreContent p)) = scoreContent p ∧
    (scoreContentWith (Except.error e)).structure_semantics = 10 ∧
    (scoreContentWith (Except.error e)).relevance_intent = 10 ∧
    (scoreContentWith (Except.error e)).token_efficiency = 8 ∧
    (scoreContentWith (Except.error e)).link_graph = 6 ∧
    (scoreContentWith (Except.error e)).llm_output_likelihood = 6 ∧
    (scoreContentWith (Except.error e)).total_score = 40 ∧
    (scoreContentWith (Except.error e)).summary = "Error occurred during scoring" :=
  ⟨rfl, rfl, rfl, rfl, rfl, rfl, rfl, rfl, rfl⟩

theorem generateHighlights_length (content : String) (t : Nat) :
    (generateHighlights content t).length =
      if t < 50 then (if 200 < content.length then 2 else 1)
      else if t < 75 then 1 else 0 := by
  unfold generateHighlights
  by_cases h1 : t < 50 <;> by_cases h2 : 200 < content.length <;>
    by_cases h3 : t < 75 <;> simp [h1, h2, h3]

/-- Claim C7, counterexample: on empty extracted content the low-score
highlight is emitted with `start = 0` and `end = Math.min(100, 0) = 0`,
violating `start < end`. -/
theorem generateHighlights_anchor_counterexample :
    ¬ (∀ h ∈ generateHighlights "" 0, h.start < h.«end») := by decide

/-- Claim C7 (amended): for every *nonempty* content string and every
total score, each generated Highlight anchor satisfies
`0 ≤ start < end ≤ length(content)` (the `0 ≤ start` bound holds by
type); on empty content the emitted anchor degenerates to
`start = end = 0`. -/
theorem generateHighlights_anchor_bounds (content : String) (totalScore : Nat)
    (hne : 0 < content.length) :
    ∀ h ∈ generateHighlights content totalScore,
      h.start < h.«end» ∧ h.«end» ≤ content.length := by
  intro h hmem
  unfold generateHighlights at hmem
  split at hmem
  · split at hmem
    · simp only [List.mem_cons, List.not_mem_nil, or_false] at hmem
      rcases hmem with hmem | hmem <;> subst hmem <;>
        refine ⟨?_, ?_⟩ <;> dsimp only <;> simp only [Nat.min_def] <;>
          split_ifs <;> omega
    · simp only [List.mem_singleton] at hmem
      subst hmem
      refine ⟨?_, ?_⟩ <;> dsimp only <;> simp only [Nat.min_def] <;>
        split_ifs <;> omega
  · split at hmem
    · simp only [List.mem_singleton] at hmem
      subst hmem
      refine ⟨?_, ?_⟩ <;> dsimp only <;> simp only [Nat.min_def] <;>
        split_ifs <;> omega
    · simp at hmem

theorem generateHighlights_anchor_bounds_witness :
    0 < ("abcdef" : String).length ∧
      ∀ h ∈ generateHighlights "abcdef" 40,
        h.start < h.«end» ∧ h.«end» ≤ ("abcdef" : String).length :=
  ⟨by decide, generateHighlights_anchor_bounds "abcdef" 40 (by decide)⟩

/-- Claim C10: `generateHighlights content totalScore` is non-empty iff
`totalScore < 75`; every emitted highlight has severity `"high"` or
`"medium"` (never `"low"`); for fixed content the number of highlights
is non-increasing in the total score, and is at most 2 for scores below
50, exactly 1 for scores in `[50, 75)`, and 0 from 75 up. -/
theorem generateHighlights_profile (content : String) (t1 t2 : Nat) (hle : t1 ≤ t2) :
    (generateHighlights content t1 ≠ [] ↔ t1 < 75) ∧
    (∀ h ∈ generateHighlights content t1, h.severity = "high" ∨ h.severity = "medium") ∧
    (generateHighlights content t2).length ≤ (generateHighlights content t1).length ∧
    (t1 < 50 → (generateHighlights content t1).length ≤ 2) ∧
    (50 ≤ t1 → t1 < 75 → (generateHighlights content t1).length = 1) ∧
    (75 ≤ t1 → generateHighlights content t1 = []) := by
  have hempty : ∀ t : Nat, generateHighlights content t = [] ↔ 75 ≤ t := by
    intro t
    rw [← List.length_eq_zero, generateHighlights_length]
    split_ifs <;> simp <;> omega
  have hl1 := generateHighlights_length content t1
  have hl2 := generateHighlights_length content t2
  refine ⟨?_, ?_, ?_, ?_, ?_, ?_⟩
  · rw [Ne, hempty]; omega
  · intro h hmem
    unfold generateHighlights at hmem
    split at hmem
    · split at hmem
      · simp only [List.mem_cons, List.not_mem_nil, or_false] at hmem
        rcases hmem with hmem | hmem <;> subst hmem
        · left; rfl
        · right; rfl
      · simp only [List.mem_singleton] at hmem
        subst hmem; left; rfl
    · split at hmem
      · simp only [List.mem_singleton] at hmem
        subst hmem; right; rfl
      · simp at hmem
  · rw [hl1, hl2]; split_ifs <;> omega
  · intro h50; rw [hl1]; split_ifs <;> omega
  · intro ha hb; rw [hl1]; split_ifs <;> omega
  · intro h75; exact (hempty t1).mpr h75

theorem generateHighlights_profile_witness :
    (40 : Nat) ≤ 80 ∧
      (generateHighlights "hello" 80).length ≤ (generateHighlights "hello" 40).length :=
  ⟨by decide, (generateHighlights_profile "hello" 40 80 (by decide)).2.2.1⟩

theorem anchorLinks_same_host (domain : String) (resolve host : String → Option String)
    (hrefs : List String) (u : String)
    (hu : u ∈ anchorLinks domain resolve host hrefs) :
    host u = some domain := by
  induction hrefs with
  | nil => simp [anchorLinks] at hu
  | cons href rest ih =>
    unfold anchorLinks at hu
    split at hu
    · rw [List.mem_append] at hu
      rcases hu with hu | hu
      · split at hu
        · split at hu
          · split at hu
            · rename_i fullUrl hres h hh hd
              rw [List.mem_singleton] at hu
              subst hu
              rw [hh, hd]
            · simp at hu
          · simp at hu
        · simp at hu
      · exact ih hu
    · exact ih hu

theorem sitemapLinks_same_host (domain : String) (host : String → Option String)
    (locs : List String) (u : String)
    (hu : u ∈ sitemapLinks domain host locs) :
    host u = some domain := by
  induction locs with
  | nil => simp [sitemapLinks] at hu
  | cons loc rest ih =>
    unfold sitemapLinks at hu
    split at hu
    · split at hu
      · rw [List.mem_append] at hu
        rcases hu with hu | hu
        · split at hu
          · rename_i h hh hd
            rw [List.mem_singleton] at hu
            subst hu
            rw [hh, hd]
          · simp at hu
        · exact ih hu
      · simp at hu
    · exact ih hu

/-- Claim C8: every URL entering the discovered set — whether from the
seed page's anchor hrefs (resolved against the seed) or from sitemap
`<loc>` entries — has hostname exactly equal to the seed's hostname
`domain`; no URL with a different hostname (or unparseable hostname)
ever enters the set. -/
theorem internalLinks_same_host (domain : String) (resolve host : String → Option String)
    (hrefs locs : List String) (u : String)
    (hu : u ∈ internalLinksSeq domain resolve host hrefs locs) :
    host u = some domain := by
  rw [internalLinksSeq, List.mem_append] at hu
  rcases hu with hu | hu
  · exact anchorLinks_same_host domain resolve host hrefs u hu
  · exact sitemapLinks_same_host domain host locs u hu

theorem internalLinks_same_host_witness :
    ("https://a.com/x" ∈ internalLinksSeq "a.com" demoResolve demoHost ["/x"] []) ∧
      demoHost "https://a.com/x" = some "a.com" :=
  ⟨by decide,
   internalLinks_same_host "a.com" demoResolve demoHost ["/x"] [] "https://a.com/x" (by decide)⟩

end LlmRankDiag
